import Mathlib

/-!
Verification of the AT Protocol OAuth demo app's authentication state
machine and persistence contract, as a shallow embedding of `src/auth.ts`,
`src/db.ts` and `src/index.ts`.

Modelling conventions:
* A SQLite table with a `varchar` primary key `key` and one `varchar`
  payload column (`state` for `auth_state`, `session` for `auth_session`,
  see the migration in `db.ts`) is modelled as a `List (String × String)`
  of rows; the primary-key constraint is the `Nodup` predicate on the
  projected keys.
* `JSON.stringify` / `JSON.parse` round-trip opaquely through the store
  (the store never inspects the blob), so record values are modelled as
  their serialized strings.
* Asynchronous library calls (`oauthClient.restore`, `.authorize`,
  `.callback`) are modelled by their outcome, passed in as a parameter:
  a JS promise either resolves to a value or rejects (throws).
* An Express handler is modelled as a pure function from the request data
  and the outcomes of its outbound calls to the produced HTTP response
  together with the new server-side state it leaves behind.
-/

/-- A table is a list of rows, each row a `(key, payload)` pair.
`auth_state` rows carry the `state` column as payload, `auth_session`
rows the `session` column. -/
abbrev Table := List (String × String)

/-- The two tables created by the migration in `db.ts`:
`auth_state (key primary key, state not null)` and
`auth_session (key primary key, session not null)`. -/
structure DatabaseSchema where
  auth_state : Table
  auth_session : Table
deriving DecidableEq, Repr

/-- Primary-key constraint of both tables: keys are pairwise distinct. -/
def DatabaseSchema.WF (db : DatabaseSchema) : Prop :=
  (db.auth_state.map Prod.fst).Nodup ∧ (db.auth_session.map Prod.fst).Nodup

/-- Semantics of `selectFrom(t).selectAll().where("key","=",key).executeTakeFirst()`:
the first row whose key matches, if any, projected to its payload column. -/
def selectWhereKey (t : Table) (key : String) : Option String :=
  (t.find? (fun r => r.1 = key)).map Prod.snd

/-- Semantics of `insertInto(t).values({key, v}).onConflict(oc => oc.doUpdateSet({v}))`:
if a row with this key exists its payload is updated in place, otherwise
the row is appended (SQLite upsert on the primary key). -/
def upsertRow (t : Table) (key v : String) : Table :=
  if t.any (fun r => r.1 = key) then
    t.map (fun r => if r.1 = key then (r.1, v) else r)
  else
    t ++ [(key, v)]

/-- Semantics of `deleteFrom(t).where("key","=",key).execute()`: every row
with a matching key is removed. -/
def deleteWhereKey (t : Table) (key : String) : Table :=
  t.filter (fun r => ¬ r.1 = key)

/-- Embedding of `StateStore.get` (`auth.ts` lines 14–22): select from
`auth_state` by key; `undefined` when no row, else the parsed `state` blob. -/
def StateStore.get (db : DatabaseSchema) (key : String) : Option String :=
  selectWhereKey db.auth_state key

/-- Embedding of `StateStore.set` (`auth.ts` lines 24–31): single-statement
upsert into `auth_state`. -/
def StateStore.set (db : DatabaseSchema) (key val : String) : DatabaseSchema :=
  { db with auth_state := upsertRow db.auth_state key val }

/-- Embedding of `StateStore.del` (`auth.ts` lines 33–35): delete from
`auth_state` by key. -/
def StateStore.del (db : DatabaseSchema) (key : String) : DatabaseSchema :=
  { db with auth_state := deleteWhereKey db.auth_state key }

/-- Embedding of `SessionStore.get` (`auth.ts` lines 41–49): select from
`auth_session` by key. -/
def SessionStore.get (db : DatabaseSchema) (key : String) : Option String :=
  selectWhereKey db.auth_session key

/-- Embedding of `SessionStore.set` (`auth.ts` lines 51–58): single-statement
upsert into `auth_session`. -/
def SessionStore.set (db : DatabaseSchema) (key val : String) : DatabaseSchema :=
  { db with auth_session := upsertRow db.auth_session key val }

/-- Embedding of `SessionStore.del` (`auth.ts` lines 60–65): delete from
`auth_session` by key. -/
def SessionStore.del (db : DatabaseSchema) (key : String) : DatabaseSchema :=
  { db with auth_session := deleteWhereKey db.auth_session key }

example : StateStore.get (StateStore.set (StateStore.set ⟨[], []⟩ "k" "v1") "k" "v2") "k"
    = some "v2" := by decide

example : SessionStore.del ⟨[], [("a", "x")]⟩ "b" = ⟨[], [("a", "x")]⟩ := by decide

/-! Request-handler layer (`index.ts`). -/

/-- The iron-session cookie payload, `type Session = { did?: string }`
(`index.ts` line 7): a subject identifier bound by the encrypted cookie,
or nothing (anonymous). -/
structure IronSession where
  did : Option String
deriving DecidableEq, Repr

/-- Semantics of `session.destroy()`: the cookie binding is cleared. -/
def IronSession.destroy (_s : IronSession) : IronSession :=
  { did := none }

/-- Outcome of the awaited library call `oauthClient.restore(did)`
(`index.ts` line 34): the promise resolves to an OAuth session (carrying
its did), resolves to `undefined`, or rejects. A rejection carries a flag
recording whether it was an infrastructure failure (storage unreachable)
as opposed to a credential failure; the code at line 36 cannot observe
this flag because its `catch` clause binds no error at all. -/
inductive RestoreOutcome
  | found (sessionDid : String)
  | absent
  | failure (infrastructure : Bool)
deriving DecidableEq, Repr

/-- Result value of `getSessionAgent`: an `Agent` wrapping the restored
OAuth session, or `null`. -/
inductive AgentView
  | agent (did : String)
  | noAgent
deriving DecidableEq, Repr

/-- Embedding of `getSessionAgent` (`index.ts` lines 30–40). The
`Except String` layer is the JS exception channel of the async function:
`.error` would be a rejected promise surfaced to the route handler. The
function returns the agent-or-null value together with the session state
it leaves behind. Line 36's bare `catch` swallows every rejection of
`restore` and answers `null` after `session.destroy()`. -/
def getSessionAgent (session : IronSession) (restore : RestoreOutcome) :
    Except String (AgentView × IronSession) :=
  match session.did with
  | none => Except.ok (AgentView.noAgent, session)
  | some _ =>
    match restore with
    | RestoreOutcome.found d => Except.ok (AgentView.agent d, session)
    | RestoreOutcome.absent => Except.ok (AgentView.noAgent, session)
    | RestoreOutcome.failure _ => Except.ok (AgentView.noAgent, session.destroy)

/-- An HTTP response as produced by the handlers in `index.ts`: either
`res.status(code).send(body)` or `res.redirect(location)`. -/
inductive HttpResponse
  | status (code : Nat) (body : String)
  | redirect (location : String)
deriving DecidableEq, Repr

/-- Outcome of the awaited library call `oauthClient.authorize(handle, ...)`
(`index.ts` line 82): resolves to a redirect URL, or rejects with either an
`Error` carrying a message or a non-`Error` value. The call may write a
flow-state row through `StateStore`, so it also yields the database it
leaves behind. -/
def AuthorizeCall : Type :=
  String → DatabaseSchema → Except (Option String) String × DatabaseSchema

/-- Embedding of the `POST /login` handler (`index.ts` lines 75–91).
The request body's `handle` field is `none` when missing; JS `!handle`
is true exactly for a missing or empty string field. On a missing handle
the handler answers 400 before `oauthClient.authorize` runs, so the
database is untouched and the `authorize` outcome is irrelevant. -/
def loginPost (db : DatabaseSchema) (handle : Option String)
    (authorize : AuthorizeCall) : HttpResponse × DatabaseSchema :=
  match handle with
  | none => (HttpResponse.status 400 "Handle is required", db)
  | some h =>
    if h = "" then (HttpResponse.status 400 "Handle is required", db)
    else
      match authorize h db with
      | (Except.ok url, db1) => (HttpResponse.redirect url, db1)
      | (Except.error msg, db1) =>
        (HttpResponse.status 500
          ("<h1>Login failed</h1><p>" ++ msg.getD "Unknown error"
            ++ "</p><a href=\"/login\">Try again</a>"), db1)

/-- Embedding of the `GET /oauth/callback` handler (`index.ts` lines
93–107). `callbackOutcome` is the result of the awaited
`oauthClient.callback(params)`: the did of the established OAuth session,
or a rejection. Only after a successful callback does the handler load the
iron-session, assign `session.did` and `await session.save()`; the catch
path answers 500 and never touches the cookie session. -/
def oauthCallbackGet (session : IronSession) (callbackOutcome : Except String String) :
    HttpResponse × IronSession :=
  match callbackOutcome with
  | Except.ok did => (HttpResponse.redirect "/", { session with did := some did })
  | Except.error _ =>
    (HttpResponse.status 500 "<h1>Login failed</h1><a href=\"/login\">Try again</a>", session)

/-- Embedding of the `POST /logout` handler (`index.ts` lines 109–113):
destroy the cookie session, redirect to `/`. The handler performs no
database access at all, so the stores pass through unchanged. -/
def logoutPost (session : IronSession) (db : DatabaseSchema) :
    HttpResponse × IronSession × DatabaseSchema :=
  (HttpResponse.redirect "/", session.destroy, db)

/-! Startup configuration (`index.ts` lines 9–16, 194–196). -/

/-- The hard-coded fallback for `COOKIE_SECRET` (`index.ts` line 10). -/
def defaultCookieSecret : String :=
  "development-secret-key-min-32-chars!!"

/-- Embedding of `process.env.COOKIE_SECRET || "development-secret-key-min-32-chars!!"`:
JS `||` falls back when the variable is unset or the empty string. -/
def cookieSecret (env : Option String) : String :=
  match env with
  | none => defaultCookieSecret
  | some s => if s = "" then defaultCookieSecret else s

/-- Embedding of `Number(process.env.PORT) || 3000` (`index.ts` line 9):
an unset, empty or non-numeric variable yields the fallback 3000. -/
def portConfig (env : Option Nat) : Nat :=
  match env with
  | none => 3000
  | some n => if n = 0 then 3000 else n

/-- The configuration a started server runs with. -/
structure ServerConfig where
  port : Nat
  secret : String
deriving DecidableEq, Repr

/-- Embedding of the startup path of `main` (`index.ts` lines 9–27 and
194–196): the two environment variables are read with their fallbacks and
the server starts listening. `main` performs no validation of the cookie
secret anywhere — the secret's only use is being passed to
`getIronSession` per request (line 25) — so startup is modelled on the
same JS exception channel as the handlers and never rejects on account of
the secret. (Database creation, migration and route registration do not
read the secret and are elided.) -/
def startup (envPort : Option Nat) (envSecret : Option String) :
    Except String ServerConfig :=
  Except.ok { port := portConfig envPort, secret := cookieSecret envSecret }

example : getSessionAgent ⟨some "did:plc:abc"⟩ (RestoreOutcome.failure true)
    = Except.ok (AgentView.noAgent, ⟨none⟩) := rfl

example : getSessionAgent ⟨some "did:plc:abc"⟩ RestoreOutcome.absent
    = Except.ok (AgentView.noAgent, ⟨some "did:plc:abc"⟩) := rfl

example : startup none (some "short") = Except.ok ⟨3000, "short"⟩ := rfl

/-! The AuthFlowCoordinator's callback completion. Its implementation is
the library `@atproto/oauth-client-node`, which is not part of this
repository's sources; only its storage callbacks (`StateStore`,
`SessionStore`) and its caller (the `/oauth/callback` handler) are. -/

/-- Error outcomes of `completeCallback` as the spec names them. -/
inductive CallbackError
  | unknownOrConsumedFlow
  | validationError
deriving DecidableEq, Repr

/-- Modelled from the spec: `completeCallback` of the AuthFlowCoordinator —
the body of the library call `oauthClient.callback(params)`, missing from
the sources. Per the spec (§4.2) it extracts the flow identifier from the
query parameters, looks up and deletes the matching FlowStateRecord (an
absent record means the flow is unknown or already consumed and the call
fails with `UnknownOrConsumedFlow`), validates the provider response
against the stored flow context and exchanges the code for a credential
(both delegated to the IdentityClient, abstracted here as the `validate`
parameter, which yields the subject identifier and serialized credential
on success), and upserts a SessionCredentialRecord for the subject. -/
def completeCallback (db : DatabaseSchema) (flowId : String)
    (validate : String → Option (String × String)) :
    Except CallbackError (String × DatabaseSchema) :=
  match StateStore.get db flowId with
  | none => Except.error CallbackError.unknownOrConsumedFlow
  | some st =>
    match validate st with
    | none => Except.error CallbackError.validationError
    | some (subject, cred) =>
      Except.ok (subject, SessionStore.set (StateStore.del db flowId) subject cred)

/-! Helper lemmas about the table operations. -/

/-- Looking up a key that occurs in no row of the table yields nothing. -/
theorem selectWhereKey_eq_none (t : Table) (k : String)
    (h : ∀ r ∈ t, r.1 ≠ k) : selectWhereKey t k = none := by
  unfold selectWhereKey
  have hf : t.find? (fun r => r.1 = k) = none :=
    List.find?_eq_none.mpr (fun r hr => by simpa using h r hr)
  rw [hf]
  rfl

/-- Updating every matching row in place rewrites the first match's payload. -/
theorem find?_map_update (t : Table) (k v : String)
    (h : t.any (fun r => r.1 = k) = true) :
    (t.map (fun r => if r.1 = k then (r.1, v) else r)).find? (fun r => r.1 = k)
      = some (k, v) := by
  induction t with
  | nil => simp at h
  | cons a t ih =>
    simp only [List.map_cons]
    by_cases ha : a.1 = k
    · rw [if_pos ha, List.find?_cons_of_pos _ (by simpa using ha)]
      simp [ha]
    · rw [if_neg ha, List.find?_cons_of_neg _ (by simpa using ha)]
      apply ih
      simpa [ha] using h

/-- The in-place update leaves the key column untouched. -/
theorem keys_map_update (t : Table) (k v : String) :
    (t.map (fun r => if r.1 = k then (r.1, v) else r)).map Prod.fst
      = t.map Prod.fst := by
  induction t with
  | nil => rfl
  | cons a t ih => by_cases ha : a.1 = k <;> simp [ha, ih]

/-- Upsert then select on the same key returns the upserted payload. -/
theorem selectWhereKey_upsertRow_self (t : Table) (k v : String) :
    selectWhereKey (upsertRow t k v) k = some v := by
  unfold selectWhereKey upsertRow
  cases hb : t.any (fun r => r.1 = k) with
  | true =>
    rw [if_pos rfl, find?_map_update t k v hb]
    rfl
  | false =>
    rw [if_neg (by simp), List.find?_append, List.find?_eq_none.mpr, Option.none_or]
    · simp
    · intro r hr
      simp only [decide_eq_true_eq]
      intro hrk
      have : t.any (fun r => r.1 = k) = true :=
        List.any_eq_true.mpr ⟨r, hr, by simpa using hrk⟩
      rw [hb] at this
      exact Bool.false_ne_true this

/-- A key outside the key column matches no row of the filter. -/
theorem filter_key_eq_nil (t : Table) (k : String) (h : k ∉ t.map Prod.fst) :
    t.filter (fun r => r.1 = k) = [] := by
  rw [List.filter_eq_nil_iff]
  intro r hr
  simp only [decide_eq_true_eq]
  intro hrk
  exact h (List.mem_map.mpr ⟨r, hr, hrk⟩)

/-- Under the primary-key constraint, updating in place leaves exactly one
row with the updated key, provided the key was present. -/
theorem length_filter_map_update (t : Table) (k v : String)
    (h : (t.map Prod.fst).Nodup) (hb : t.any (fun r => r.1 = k) = true) :
    ((t.map (fun r => if r.1 = k then (r.1, v) else r)).filter
      (fun r => r.1 = k)).length = 1 := by
  induction t with
  | nil => simp at hb
  | cons a t ih =>
    simp only [List.map_cons] at h ⊢
    obtain ⟨hna, hnd⟩ := List.nodup_cons.mp h
    by_cases ha : a.1 = k
    · rw [if_pos ha, List.filter_cons_of_pos (by simpa using ha)]
      have htail : (t.map (fun r => if r.1 = k then (r.1, v) else r)).filter
          (fun r => r.1 = k) = [] := by
        apply filter_key_eq_nil
        rw [keys_map_update, ← ha]
        exact hna
      simp [htail]
    · rw [if_neg ha, List.filter_cons_of_neg (by simpa using ha)]
      exact ih hnd (by simpa [ha] using hb)

/-- Under the primary-key constraint, an upsert leaves exactly one row
holding the upserted key. -/
theorem length_filter_upsertRow (t : Table) (k v : String)
    (h : (t.map Prod.fst).Nodup) :
    ((upsertRow t k v).filter (fun r => r.1 = k)).length = 1 := by
  unfold upsertRow
  cases hb : t.any (fun r => r.1 = k) with
  | true => rw [if_pos rfl]; exact length_filter_map_update t k v h hb
  | false =>
    rw [if_neg (by simp), List.filter_append, filter_key_eq_nil t k ?absent]
    · simp
    case absent =>
      intro hk
      obtain ⟨r, hr, hrk⟩ := List.mem_map.mp hk
      have : t.any (fun r => r.1 = k) = true :=
        List.any_eq_true.mpr ⟨r, hr, by simpa using hrk⟩
      rw [hb] at this
      exact Bool.false_ne_true this

/-- An upsert preserves the primary-key constraint of the table. -/
theorem nodup_keys_upsertRow (t : Table) (k v : String)
    (h : (t.map Prod.fst).Nodup) :
    ((upsertRow t k v).map Prod.fst).Nodup := by
  unfold upsertRow
  cases hb : t.any (fun r => r.1 = k) with
  | true => rw [if_pos rfl, keys_map_update]; exact h
  | false =>
    rw [if_neg (by simp), List.map_append]
    rw [List.nodup_append]
    refine ⟨h, List.nodup_singleton k, ?_⟩
    intro x hx hx'
    simp only [List.map_cons, List.map_nil, List.mem_singleton] at hx'
    subst hx'
    obtain ⟨r, hr, hrk⟩ := List.mem_map.mp hx
    have : t.any (fun r => r.1 = x) = true :=
      List.any_eq_true.mpr ⟨r, hr, by simpa using hrk⟩
    rw [hb] at this
    exact Bool.false_ne_true this

/-- Deleting a key then selecting it yields nothing. -/
theorem selectWhereKey_deleteWhereKey_self (t : Table) (k : String) :
    selectWhereKey (deleteWhereKey t k) k = none := by
  apply selectWhereKey_eq_none
  intro r hr
  have := (List.mem_filter.mp hr).2
  simpa using this

/-- Deleting a key that matches no row leaves the table unchanged. -/
theorem deleteWhereKey_eq_self (t : Table) (k : String)
    (h : ∀ r ∈ t, r.1 ≠ k) : deleteWhereKey t k = t := by
  rw [deleteWhereKey, List.filter_eq_self]
  intro r hr
  simpa using h r hr

/-- Deleting the same key twice is the same as deleting it once. -/
theorem deleteWhereKey_idem (t : Table) (k : String) :
    deleteWhereKey (deleteWhereKey t k) k = deleteWhereKey t k := by
  unfold deleteWhereKey
  rw [List.filter_eq_self]
  intro r hr
  exact (List.mem_filter.mp hr).2

/-- Lookup that returned nothing means no row carries the key. -/
theorem forall_ne_of_selectWhereKey_eq_none (t : Table) (k : String)
    (h : selectWhereKey t k = none) : ∀ r ∈ t, r.1 ≠ k := by
  intro r hr
  unfold selectWhereKey at h
  rw [Option.map_eq_none'] at h
  have := List.find?_eq_none.mp h r hr
  simpa using this

/-! Claim theorems. -/

/-- Claim C1: for every key `k` and values `v1`, `v2`, `set(k, v1)` then
`set(k, v2)` then `get(k)` on either store (StateStore or SessionStore)
returns `v2`: the second set replaces the first value in place via the
single insert-or-update statement, leaving — under the tables'
primary-key constraint — exactly one row for `k`. -/
theorem claim_C1_upsert_overwrite (db : DatabaseSchema) (k v1 v2 : String)
    (hwf : db.WF) :
    (StateStore.get (StateStore.set (StateStore.set db k v1) k v2) k = some v2 ∧
      ((StateStore.set (StateStore.set db k v1) k v2).auth_state.filter
        (fun r => r.1 = k)).length = 1) ∧
    (SessionStore.get (SessionStore.set (SessionStore.set db k v1) k v2) k = some v2 ∧
      ((SessionStore.set (SessionStore.set db k v1) k v2).auth_session.filter
        (fun r => r.1 = k)).length = 1) := by
  obtain ⟨h1, h2⟩ := hwf
  refine ⟨⟨?_, ?_⟩, ?_, ?_⟩
  · exact selectWhereKey_upsertRow_self _ k v2
  · exact length_filter_upsertRow _ k v2 (nodup_keys_upsertRow _ k v1 h1)
  · exact selectWhereKey_upsertRow_self _ k v2
  · exact length_filter_upsertRow _ k v2 (nodup_keys_upsertRow _ k v1 h2)

/-- Witness for C1 at a concrete store satisfying the key constraint. -/
theorem claim_C1_upsert_overwrite_witness :
    (StateStore.get (StateStore.set (StateStore.set
        ⟨[("other", "s0")], [("did:plc:abc", "c0")]⟩ "k" "v1") "k" "v2") "k" = some "v2" ∧
      ((StateStore.set (StateStore.set
        ⟨[("other", "s0")], [("did:plc:abc", "c0")]⟩ "k" "v1") "k" "v2").auth_state.filter
        (fun r => r.1 = "k")).length = 1) ∧
    (SessionStore.get (SessionStore.set (SessionStore.set
        ⟨[("other", "s0")], [("did:plc:abc", "c0")]⟩ "k" "v1") "k" "v2") "k" = some "v2" ∧
      ((SessionStore.set (SessionStore.set
        ⟨[("other", "s0")], [("did:plc:abc", "c0")]⟩ "k" "v1") "k" "v2").auth_session.filter
        (fun r => r.1 = "k")).length = 1) :=
  claim_C1_upsert_overwrite ⟨[("other", "s0")], [("did:plc:abc", "c0")]⟩ "k" "v1" "v2"
    (by constructor <;> decide)

/-- Claim C2: a first successful `completeCallback` consumes and deletes
the matching FlowStateRecord, so a second invocation with identical
parameters fails with `UnknownOrConsumedFlow` and produces no
credential. -/
theorem claim_C2_flow_single_use (db db' : DatabaseSchema) (flowId subj : String)
    (validate : String → Option (String × String))
    (h : completeCallback db flowId validate = Except.ok (subj, db')) :
    StateStore.get db' flowId = none ∧
      completeCallback db' flowId validate
        = Except.error CallbackError.unknownOrConsumedFlow := by
  unfold completeCallback at h
  cases hg : StateStore.get db flowId with
  | none => rw [hg] at h; cases h
  | some st =>
    rw [hg] at h
    have h1 : (match validate st with
        | none => Except.error CallbackError.validationError
        | some (subject, cred) =>
          Except.ok (subject, SessionStore.set (StateStore.del db flowId) subject cred))
        = Except.ok (subj, db') := h
    cases hv : validate st with
    | none => rw [hv] at h1; cases h1
    | some p =>
      obtain ⟨s2, c2⟩ := p
      rw [hv] at h1
      have h' : Except.ok (ε := CallbackError)
          (s2, SessionStore.set (StateStore.del db flowId) s2 c2)
          = Except.ok (subj, db') := h1
      have hpair := Except.ok.inj h'
      simp only [Prod.mk.injEq] at hpair
      obtain ⟨hs, hdb⟩ := hpair
      have hget : StateStore.get db' flowId = none := by
        rw [← hdb]
        show selectWhereKey (deleteWhereKey db.auth_state flowId) flowId = none
        exact selectWhereKey_deleteWhereKey_self _ _
      refine ⟨hget, ?_⟩
      unfold completeCallback
      rw [hget]

/-- Concrete database holding one in-flight flow record, for the C2
witness. -/
def flowDb : DatabaseSchema := ⟨[("flow1", "ctx1")], []⟩

/-- Concrete IdentityClient validation outcome used by the C2 witness. -/
def flowValidate : String → Option (String × String) :=
  fun st => some ("did:plc:abc", "cred:" ++ st)

/-- Witness for C2: the concrete first callback succeeds, after which the
flow record is gone and the replayed callback fails. -/
theorem claim_C2_flow_single_use_witness :
    StateStore.get ⟨[], [("did:plc:abc", "cred:ctx1")]⟩ "flow1" = none ∧
      completeCallback ⟨[], [("did:plc:abc", "cred:ctx1")]⟩ "flow1" flowValidate
        = Except.error CallbackError.unknownOrConsumedFlow :=
  claim_C2_flow_single_use flowDb ⟨[], [("did:plc:abc", "cred:ctx1")]⟩
    "flow1" "did:plc:abc" flowValidate rfl

/-- Claim C3 counterexample: with a did bound in the cookie, an
infrastructure failure thrown by `restore` is swallowed by the bare
`catch` of `getSessionAgent` — the route handler receives a successful
null result (with the session destroyed), not a propagated error, so the
caller cannot answer 500. -/
theorem claim_C3_counterexample :
    getSessionAgent ⟨some "did:plc:abc"⟩ (RestoreOutcome.failure true)
      = Except.ok (AgentView.noAgent, ⟨none⟩) := rfl

/-- Claim C3 (amended): `getSessionAgent` never throws for the
not-logged-in case, and in fact never throws at all: every `restore`
rejection, infrastructure failure included, is caught and converted into
a null (logged-out) result with the session destroyed, rather than
propagating to the caller. -/
theorem claim_C3_amended_no_propagation (session : IronSession)
    (restore : RestoreOutcome) (b : Bool) (h : session.did ≠ none) :
    getSessionAgent session (RestoreOutcome.failure b)
      = Except.ok (AgentView.noAgent, session.destroy) ∧
    ∃ v, getSessionAgent session restore = Except.ok v := by
  obtain ⟨d, hd⟩ := Option.ne_none_iff_exists'.mp h
  refine ⟨?_, ?_⟩
  · simp [getSessionAgent, hd]
  · cases restore <;> simp [getSessionAgent, hd]

/-- Witness for the amended C3 at a concrete bound session. -/
theorem claim_C3_amended_no_propagation_witness :
    getSessionAgent ⟨some "did:plc:abc"⟩ (RestoreOutcome.failure true)
      = Except.ok (AgentView.noAgent, IronSession.destroy ⟨some "did:plc:abc"⟩) ∧
    ∃ v, getSessionAgent ⟨some "did:plc:abc"⟩ RestoreOutcome.absent = Except.ok v :=
  claim_C3_amended_no_propagation ⟨some "did:plc:abc"⟩ RestoreOutcome.absent true
    (by simp)

/-- Claim C4 counterexample: when `restore` resolves to `undefined`
(signals absence), `getSessionAgent` returns null with the cookie binding
left intact — `session.destroy()` is not invoked on the absence path. -/
theorem claim_C4_counterexample :
    getSessionAgent ⟨some "did:plc:abc"⟩ RestoreOutcome.absent
      = Except.ok (AgentView.noAgent, ⟨some "did:plc:abc"⟩) := rfl

/-- Claim C4 (amended): the self-healing unbind runs only on the failure
path — when `restore` throws, `session.destroy()` is invoked before null
is returned; when `restore` merely signals absence, null is returned with
the stale binding left unchanged. -/
theorem claim_C4_amended_unbind_only_on_failure (session : IronSession)
    (d : String) (b : Bool) (h : session.did = some d) :
    getSessionAgent session (RestoreOutcome.failure b)
      = Except.ok (AgentView.noAgent, session.destroy) ∧
    getSessionAgent session RestoreOutcome.absent
      = Except.ok (AgentView.noAgent, session) := by
  refine ⟨?_, ?_⟩ <;> simp [getSessionAgent, h]

/-- Witness for the amended C4 at a concrete bound session. -/
theorem claim_C4_amended_unbind_only_on_failure_witness :
    getSessionAgent ⟨some "did:plc:abc"⟩ (RestoreOutcome.failure false)
      = Except.ok (AgentView.noAgent, IronSession.destroy ⟨some "did:plc:abc"⟩) ∧
    getSessionAgent ⟨some "did:plc:abc"⟩ RestoreOutcome.absent
      = Except.ok (AgentView.noAgent, ⟨some "did:plc:abc"⟩) :=
  claim_C4_amended_unbind_only_on_failure ⟨some "did:plc:abc"⟩ "did:plc:abc" false rfl

/-- Claim C5 counterexample: startup with a 5-character configured cookie
secret succeeds — no minimum-length check runs at startup, so a short
secret does not make the process fail fast. -/
theorem claim_C5_counterexample :
    startup none (some "short") = Except.ok ⟨3000, "short"⟩ ∧
      "short".length < 32 :=
  ⟨rfl, by decide⟩

/-- Claim C5 (amended): startup reads the cookie secret with a hard-coded
fallback — itself at least 32 characters, covering the missing-secret
case — but performs no minimum-length validation of a configured secret:
startup always succeeds, even for an arbitrarily short secret, and any
length enforcement is left to the per-request cookie library call. -/
theorem claim_C5_amended_no_startup_check (envPort : Option Nat)
    (envSecret : Option String) :
    (∃ cfg, startup envPort envSecret = Except.ok cfg ∧
      cfg.secret = cookieSecret envSecret) ∧
    32 ≤ defaultCookieSecret.length :=
  ⟨⟨_, rfl, rfl⟩, by decide⟩

/-- Claim C6: a `POST /login` whose body lacks a non-empty `handle` field
answers 400 with "Handle is required", returns the database unchanged (no
FlowStateRecord created), and its result does not depend on the
`authorize` call, which is never made. -/
theorem claim_C6_login_requires_handle (db : DatabaseSchema)
    (handle : Option String) (authorize : AuthorizeCall)
    (h : handle = none ∨ handle = some "") :
    loginPost db handle authorize
      = (HttpResponse.status 400 "Handle is required", db) := by
  rcases h with h | h <;> subst h <;> rfl

/-- Concrete authorize outcome for the C6 witness: were it invoked, it
would write a flow row and yield a provider redirect URL. -/
def authorizeSample : AuthorizeCall := fun h db =>
  (Except.ok ("https://pds.example/oauth/authorize?handle=" ++ h),
    StateStore.set db "flow1" "ctx1")

/-- Witness for C6 at an empty-string handle. -/
theorem claim_C6_login_requires_handle_witness :
    loginPost ⟨[], []⟩ (some "") authorizeSample
      = (HttpResponse.status 400 "Handle is required", ⟨[], []⟩) :=
  claim_C6_login_requires_handle ⟨[], []⟩ (some "") authorizeSample (Or.inr rfl)

/-- Claim C7: `POST /logout` destroys the cookie binding unconditionally
and redirects to `/`, while leaving the database — in particular every
stored SessionCredentialRecord in `auth_session` — unchanged. -/
theorem claim_C7_logout_unbind_only (session : IronSession) (db : DatabaseSchema) :
    logoutPost session db = (HttpResponse.redirect "/", ⟨none⟩, db) ∧
    (logoutPost session db).2.2.auth_session = db.auth_session :=
  ⟨rfl, rfl⟩

/-- Claim C8: deleting a key absent from either store succeeds and leaves
the store unchanged, and `del` is idempotent for every key. -/
theorem claim_C8_del_idempotent (db : DatabaseSchema) (k : String) :
    (StateStore.get db k = none → StateStore.del db k = db) ∧
    StateStore.del (StateStore.del db k) k = StateStore.del db k ∧
    (SessionStore.get db k = none → SessionStore.del db k = db) ∧
    SessionStore.del (SessionStore.del db k) k = SessionStore.del db k := by
  refine ⟨?_, ?_, ?_, ?_⟩
  · intro h
    have hd := deleteWhereKey_eq_self db.auth_state k
      (forall_ne_of_selectWhereKey_eq_none _ _ h)
    simp [StateStore.del, hd]
  · simp [StateStore.del, deleteWhereKey_idem]
  · intro h
    have hd := deleteWhereKey_eq_self db.auth_session k
      (forall_ne_of_selectWhereKey_eq_none _ _ h)
    simp [SessionStore.del, hd]
  · simp [SessionStore.del, deleteWhereKey_idem]

/-- Witness for C8 at a key absent from a concrete store. -/
theorem claim_C8_del_idempotent_witness :
    StateStore.del ⟨[("flow1", "ctx1")], [("did:plc:abc", "c0")]⟩ "nope"
      = ⟨[("flow1", "ctx1")], [("did:plc:abc", "c0")]⟩ ∧
    SessionStore.del ⟨[("flow1", "ctx1")], [("did:plc:abc", "c0")]⟩ "nope"
      = ⟨[("flow1", "ctx1")], [("did:plc:abc", "c0")]⟩ :=
  ⟨(claim_C8_del_idempotent ⟨[("flow1", "ctx1")], [("did:plc:abc", "c0")]⟩ "nope").1
      (by decide),
   (claim_C8_del_idempotent ⟨[("flow1", "ctx1")], [("did:plc:abc", "c0")]⟩ "nope").2.2.1
      (by decide)⟩

/-- Claim C9: when `oauthClient.callback` rejects, the `/oauth/callback`
handler answers 500 and returns the cookie session exactly as it came in:
`session.did` is assigned and `session.save()` runs only after a
successful callback, so a failed callback leaves the browser binding
unchanged. -/
theorem claim_C9_callback_failure_leaves_binding (session : IronSession)
    (e : String) :
    oauthCallbackGet session (Except.error e)
      = (HttpResponse.status 500
          "<h1>Login failed</h1><a href=\"/login\">Try again</a>", session) :=
  rfl

/-- Claim C10: every StateStore operation reads and writes only the
`auth_state` table and every SessionStore operation only `auth_session`:
each store's writes leave the other table unchanged, and each store's
read agrees between any two databases that agree on the store's own
table. -/
theorem claim_C10_store_disjoint_tables (db dbS dbQ : DatabaseSchema)
    (k v : String)
    (hS : db.auth_state = dbS.auth_state) (hQ : db.auth_session = dbQ.auth_session) :
    (StateStore.set db k v).auth_session = db.auth_session ∧
    (StateStore.del db k).auth_session = db.auth_session ∧
    StateStore.get db k = StateStore.get dbS k ∧
    (SessionStore.set db k v).auth_state = db.auth_state ∧
    (SessionStore.del db k).auth_state = db.auth_state ∧
    SessionStore.get db k = SessionStore.get dbQ k := by
  refine ⟨rfl, rfl, ?_, rfl, rfl, ?_⟩
  · show selectWhereKey db.auth_state k = selectWhereKey dbS.auth_state k
    rw [hS]
  · show selectWhereKey db.auth_session k = selectWhereKey dbQ.auth_session k
    rw [hQ]

/-- Witness for C10 at concrete databases agreeing on one table each. -/
theorem claim_C10_store_disjoint_tables_witness :
    (StateStore.set ⟨[("a", "1")], [("b", "2")]⟩ "a" "x").auth_session = [("b", "2")] ∧
    (StateStore.del ⟨[("a", "1")], [("b", "2")]⟩ "a").auth_session = [("b", "2")] ∧
    StateStore.get ⟨[("a", "1")], [("b", "2")]⟩ "a"
      = StateStore.get ⟨[("a", "1")], []⟩ "a" ∧
    (SessionStore.set ⟨[("a", "1")], [("b", "2")]⟩ "a" "x").auth_state = [("a", "1")] ∧
    (SessionStore.del ⟨[("a", "1")], [("b", "2")]⟩ "a").auth_state = [("a", "1")] ∧
    SessionStore.get ⟨[("a", "1")], [("b", "2")]⟩ "a"
      = SessionStore.get ⟨[], [("b", "2")]⟩ "a" :=
  claim_C10_store_disjoint_tables ⟨[("a", "1")], [("b", "2")]⟩
    ⟨[("a", "1")], []⟩ ⟨[], [("b", "2")]⟩ "a" "x" rfl rfl
